import Mathlib

/-!
Verification of the ability supervisor of `brain/ability.go` (package
`astibrain`).  The Go code is shallowly embedded: the mutable fields of the
`ability` struct become a Lean structure, and the methods `newAbility`,
`isOnUnsafe`, `isOn`, `on`, `onActivable`, `onRunnable`, `wait` and `off`
become pure functions on that structure.  Side effects are made observable:

* `ws.send(event, name)` (the websocket sink, whose code is outside the
  analysed sources; per spec section 4.3 it merely accepts an
  `(eventName, payload)` pair) is modelled as appending the pair to an
  `events` list;
* `v.Activate(b)` is modelled as appending `b` to an `activateCalls` list;
* starting a goroutine (`go a.wait()`, the Activable waiter, the Runnable
  runner) is modelled by incrementing a counter in the sequential model, and
  by enabling a thread in the interleaving models further down;
* `context.WithCancel` allocates a fresh generation number; a context is a
  pair of its generation and a `cancelled` flag (`ctx.Err() != nil` iff
  `cancelled`); the `chanDone` channel likewise carries the generation number
  it was allocated with, so that reuse versus replacement is observable;
* `astilog.Error(errors.Wrapf(err, ...))` in the crash branch of `wait` is
  modelled by appending the received error to `crashLogs`, so that the
  received error value remains observable even though classification
  ignores it.

Go `error` values are modelled as `Option Nat` (`none` = nil error).
-/

/-- The three websocket event names dispatched by the supervisor
(`WebsocketEventNameAbilityStarted` / `...Stopped` / `...Crashed`). -/
inductive EventName where
  | abilityStarted
  | abilityStopped
  | abilityCrashed
deriving DecidableEq, Repr

/-- A cancellation context as produced by `context.WithCancel`:
its allocation generation and whether its cancel function has run
(`cancelled = true` iff `ctx.Err() != nil`). -/
structure Ctx where
  gen : Nat
  cancelled : Bool
deriving DecidableEq, Repr

/-- The dynamic capability shape of the implementation value `a` held by the
record: which of the two type assertions `a.(Activable)` and `a.(Runnable)`
succeed. -/
structure Impl where
  activable : Bool
  runnable : Bool
deriving DecidableEq, Repr

/-- `AbilityOptions` of the Go source. -/
structure AbilityOptions where
  autoStart : Bool
deriving DecidableEq, Repr

/-- The `ability` struct of `brain/ability.go`, with effects reified.
`ctx` and `cancel` are `none` until the first `on()`.  `cancel` stores the
generation of the context its stored cancel function belongs to.
`chanGen` is the allocation generation of the current `chanDone` channel.
`nextGen` is the fresh-generation supply. -/
structure State where
  a : Impl
  cancel : Option Nat
  chanGen : Nat
  ctx : Option Ctx
  name : String
  o : AbilityOptions
  nextGen : Nat
  events : List (EventName × String)
  activateCalls : List Bool
  crashLogs : List (Option Nat)
  spawnedWatchers : Nat
  spawnedWaiters : Nat
  spawnedRuns : Nat
deriving DecidableEq, Repr

/-- `newAbility(name, a, ws, o)`: allocates the record with a fresh
`chanDone` (generation 0) and nil `ctx`/`cancel`. -/
def newAbility (name : String) (a : Impl) (o : AbilityOptions) : State :=
  { a := a
    cancel := none
    chanGen := 0
    ctx := none
    name := name
    o := o
    nextGen := 1
    events := []
    activateCalls := []
    crashLogs := []
    spawnedWatchers := 0
    spawnedWaiters := 0
    spawnedRuns := 0 }

/-- `isOnUnsafe`: `a.ctx != nil && a.ctx.Err() == nil`. -/
def isOnUnsafe (s : State) : Bool :=
  match s.ctx with
  | some c => !c.cancelled
  | none => false

/-- `isOn`: takes the mutex and calls `isOnUnsafe`.  In the sequential model
the mutex is invisible; the interleaving models below treat the whole locked
section as one atomic step. -/
def isOn (s : State) : Bool :=
  isOnUnsafe s

/-- Invoking the stored cancel function `a.cancel()`: it cancels exactly the
context it was created together with (matching generations). -/
def cancelCurrent (s : State) : State :=
  match s.cancel, s.ctx with
  | some g, some c =>
      if c.gen = g then { s with ctx := some { c with cancelled := true } } else s
  | _, _ => s

/-- `onActivable(v)`: calls `v.Activate(true)` synchronously, then starts the
waiter goroutine (which blocks on `<-a.ctx.Done()`). -/
def onActivable (s : State) : State :=
  { s with activateCalls := s.activateCalls ++ [true]
           spawnedWaiters := s.spawnedWaiters + 1 }

/-- Body of the Activable waiter goroutine, run only once the cancellation
context is done: calls `v.Activate(false)` and posts `nil` to `chanDone`.
Returns the updated state together with the posted value. -/
def activableWaiterBody (s : State) : State × Option Nat :=
  ({ s with activateCalls := s.activateCalls ++ [false] }, none)

/-- `onRunnable(v)`: starts the runner goroutine
(`go func() { a.chanDone <- v.Run(a.ctx) }()`). -/
def onRunnable (s : State) : State :=
  { s with spawnedRuns := s.spawnedRuns + 1 }

/-- The capability-dispatch section of `on()`: the chain of type assertions
`if v, ok := a.a.(Activable); ok { ... } else if v, ok := a.a.(Runnable); ok
{ ... }`, with Activable checked first; when neither assertion succeeds,
nothing is dispatched. -/
def dispatch (s : State) : State :=
  if s.a.activable then onActivable s
  else if s.a.runnable then onRunnable s
  else s

/-- `on()`: if already on, return; otherwise install a fresh
context/cancel pair, start the watcher goroutine, dispatch on the
capability shape, and finally send the `AbilityStarted` event. -/
def «on» (s : State) : State :=
  if isOn s then s
  else
    let s1 : State :=
      { s with ctx := some { gen := s.nextGen, cancelled := false }
               cancel := some s.nextGen
               nextGen := s.nextGen + 1
               spawnedWatchers := s.spawnedWatchers + 1 }
    let s2 : State := dispatch s1
    { s2 with events := s2.events ++ [(EventName.abilityStarted, s2.name)] }

/-- `a.ctx.Err() == nil` as read by `wait` after draining `chanDone`
(`wait` only runs with a non-nil context; the `none` branch is the Go nil
dereference, never reached under the `isOn` guard). -/
def ctxErrIsNil (s : State) : Bool :=
  match s.ctx with
  | some c => !c.cancelled
  | none => true

/-- The classification step of `wait`, executed after `err := <-a.chanDone`
has received: `if a.ctx.Err() == nil` log and send `AbilityCrashed`, else
send `AbilityStopped`.  `err` is the value received from `chanDone`; it is
recorded in the crash log but never consulted by the branch. -/
def waitClassify (s : State) (err : Option Nat) : State :=
  if ctxErrIsNil s then
    { s with crashLogs := s.crashLogs ++ [err]
             events := s.events ++ [(EventName.abilityCrashed, s.name)] }
  else
    { s with events := s.events ++ [(EventName.abilityStopped, s.name)] }

/-- `wait()` as a sequential function of the state at receive time and the
received value: guard `!a.isOn()`, classify, then the deferred `a.cancel()`. -/
def wait (s : State) (err : Option Nat) : State :=
  if !(isOn s) then s
  else cancelCurrent (waitClassify s err)

/-- `off()`: if already off, return; otherwise invoke the stored cancel
function synchronously and return (teardown continues in `wait`). -/
def off (s : State) : State :=
  if !(isOn s) then s
  else cancelCurrent s

/-- Number of events named `e` in an event list. -/
def countEvent (e : EventName) (evs : List (EventName × String)) : Nat :=
  evs.countP (fun p => p.1 == e)

/-- The context/cancel pairing invariant maintained by the code: `ctx` and
`cancel` are either both nil (before the first `on()`) or both set by the
same `on()` call, hence of equal generation. -/
def paired (s : State) : Bool :=
  match s.ctx, s.cancel with
  | some c, some g => c.gen == g
  | none, none => true
  | _, _ => false

/-!
## Interleaving model A: two concurrent callers of `on()`

Each of two threads executes one call of `on()` on a shared record holding
an Activable implementation.  Atomicity follows the Go source: the only
mutex in `on()` is the one taken inside `isOn()`, so the `isOn()` call is a
single atomic step, and everything after it (installing the context/cancel
pair, starting the watcher, `Activate(true)`, sending the event) happens in
separate steps with no lock held.

Program counter meanings (per thread):
* 0 — about to run `a.isOn()` (atomic locked section);
* 1 — saw "off", about to run `a.ctx, a.cancel = context.WithCancel(...)`;
* 2 — about to run `go a.wait()` and the Activable dispatch
      (`v.Activate(true)` plus starting the waiter goroutine);
* 3 — about to send the `AbilityStarted` event;
* 4 — returned.
-/

/-- Shared state of the two-caller race model: the record fields touched by
`on()`, instrumentation counters, and the two program counters. -/
structure RaceState where
  ctx : Option Ctx
  cancel : Option Nat
  nextGen : Nat
  activateTrue : Nat
  started : Nat
  watchers : Nat
  pc0 : Nat
  pc1 : Nat
deriving DecidableEq, Repr

/-- Read the program counter of thread `t`. -/
def RaceState.pc (s : RaceState) (t : Bool) : Nat :=
  if t then s.pc1 else s.pc0

/-- Write the program counter of thread `t`. -/
def RaceState.setPc (s : RaceState) (t : Bool) (v : Nat) : RaceState :=
  if t then { s with pc1 := v } else { s with pc0 := v }

/-- `isOn` on the shared fields of the race model. -/
def raceIsOn (s : RaceState) : Bool :=
  match s.ctx with
  | some c => !c.cancelled
  | none => false

/-- One atomic step of thread `t` running `on()`. -/
def raceStep (s : RaceState) (t : Bool) : RaceState :=
  match s.pc t with
  | 0 => if raceIsOn s then s.setPc t 4 else s.setPc t 1
  | 1 =>
      ({ s with ctx := some { gen := s.nextGen, cancelled := false }
                cancel := some s.nextGen
                nextGen := s.nextGen + 1 } : RaceState).setPc t 2
  | 2 =>
      ({ s with watchers := s.watchers + 1
                activateTrue := s.activateTrue + 1 } : RaceState).setPc t 3
  | 3 => ({ s with started := s.started + 1 } : RaceState).setPc t 4
  | _ => s

/-- Run a schedule (a list of thread identifiers) from a state. -/
def raceRun (s : RaceState) (sched : List Bool) : RaceState :=
  sched.foldl raceStep s

/-- The initial state: a freshly constructed, off ability; both callers at
the `isOn()` check. -/
def raceInit : RaceState :=
  { ctx := none
    cancel := none
    nextGen := 1
    activateTrue := 0
    started := 0
    watchers := 0
    pc0 := 0
    pc1 := 0 }

/-- The racy schedule: thread 0 runs its `isOn()` check (sees off), then
thread 1 runs its whole `on()` call, then thread 0 resumes. -/
def raceBadSched : List Bool :=
  [false, true, true, true, true, false, false, false]

/-!
## Interleaving model B: one `on()` call on an immediately-failing Runnable

Threads: the caller running `on()`, the watcher goroutine running `wait()`,
and the runner goroutine started by `onRunnable` whose `Run` returns a
non-nil error at once (the spec's Runnable-crash scenario).  The unbuffered
`chanDone` is modelled as a single slot: the runner's send fills it (and is
blocked while it is full), the watcher's receive drains it; since the
runner performs no action after its send, this is observationally the
rendezvous of the Go channel.

Caller program counter: 0 `isOn()` check; 1 install context/cancel;
2 `go a.wait()`; 3 start the runner goroutine; 4 send `AbilityStarted`;
5 returned.  Watcher: 0 `isOn()` check; 1 receive from `chanDone`;
2 classify and send the terminal event; 3 deferred `a.cancel()`; 4 returned.
Runner: 0 evaluate `v.Run(a.ctx)` (returns error 1 immediately) and send it;
1 returned.
-/

/-- Thread identifiers of the crash-scenario model. -/
inductive Tid where
  | caller
  | watcher
  | runner
deriving DecidableEq, Repr

/-- Shared state of the crash-scenario model. -/
structure RunState where
  ctx : Option Ctx
  cancel : Option Nat
  nextGen : Nat
  log : List EventName
  slot : Option (Option Nat)
  received : Option Nat
  watcherSpawned : Bool
  runnerSpawned : Bool
  callerPc : Nat
  watcherPc : Nat
  runnerPc : Nat
deriving DecidableEq, Repr

/-- `isOn` on the shared fields of the crash-scenario model. -/
def runIsOn (s : RunState) : Bool :=
  match s.ctx with
  | some c => !c.cancelled
  | none => false

/-- `a.ctx.Err() == nil` in the crash-scenario model. -/
def runCtxErrIsNil (s : RunState) : Bool :=
  match s.ctx with
  | some c => !c.cancelled
  | none => true

/-- Invoke the stored cancel function in the crash-scenario model. -/
def runCancel (s : RunState) : RunState :=
  match s.cancel, s.ctx with
  | some g, some c =>
      if c.gen = g then { s with ctx := some { c with cancelled := true } } else s
  | _, _ => s

/-- One atomic step of thread `t`; a step of a thread that is not yet
spawned, already done, or blocked on the channel leaves the state
unchanged. -/
def runStep (s : RunState) (t : Tid) : RunState :=
  match t with
  | Tid.caller =>
      match s.callerPc with
      | 0 => if runIsOn s then { s with callerPc := 5 } else { s with callerPc := 1 }
      | 1 =>
          { s with ctx := some { gen := s.nextGen, cancelled := false }
                   cancel := some s.nextGen
                   nextGen := s.nextGen + 1
                   callerPc := 2 }
      | 2 => { s with watcherSpawned := true, callerPc := 3 }
      | 3 => { s with runnerSpawned := true, callerPc := 4 }
      | 4 => { s with log := s.log ++ [EventName.abilityStarted], callerPc := 5 }
      | _ => s
  | Tid.watcher =>
      if !s.watcherSpawned then s
      else
        match s.watcherPc with
        | 0 => if runIsOn s then { s with watcherPc := 1 } else { s with watcherPc := 4 }
        | 1 =>
            match s.slot with
            | some v => { s with slot := none, received := v, watcherPc := 2 }
            | none => s
        | 2 =>
            if runCtxErrIsNil s then
              { s with log := s.log ++ [EventName.abilityCrashed], watcherPc := 3 }
            else
              { s with log := s.log ++ [EventName.abilityStopped], watcherPc := 3 }
        | 3 => { runCancel s with watcherPc := 4 }
        | _ => s
  | Tid.runner =>
      if !s.runnerSpawned then s
      else
        match s.runnerPc with
        | 0 =>
            match s.slot with
            | none => { s with slot := some (some 1), runnerPc := 1 }
            | some _ => s
        | _ => s

/-- Run a schedule from a state. -/
def runSched (s : RunState) (sched : List Tid) : RunState :=
  sched.foldl runStep s

/-- Initial state: a freshly constructed, off ability with a Runnable
implementation whose `Run` fails immediately. -/
def runInit : RunState :=
  { ctx := none
    cancel := none
    nextGen := 1
    log := []
    slot := none
    received := none
    watcherSpawned := false
    runnerSpawned := false
    callerPc := 0
    watcherPc := 0
    runnerPc := 0 }

/-- The caller's five steps of `on()` run to completion with no
interference. -/
def callerAll : List Tid :=
  [Tid.caller, Tid.caller, Tid.caller, Tid.caller, Tid.caller]

/-- A schedule in which the runner and the watcher overtake the tail of
`on()`: the caller installs the session and starts both goroutines, the
runner posts its error, the watcher classifies and emits the terminal
event, and only then does the caller send `AbilityStarted`. -/
def runBadSched : List Tid :=
  [Tid.caller, Tid.caller, Tid.caller, Tid.caller,
   Tid.runner, Tid.watcher, Tid.watcher, Tid.watcher, Tid.caller]

/-!
## Supporting lemmas
-/

/-- The deferred `a.cancel()` of the watcher does not touch the event log of
the crash-scenario model. -/
theorem runCancel_log (s : RunState) : (runCancel s).log = s.log := by
  unfold runCancel
  (repeat' split) <;> rfl

/-- A single step of the crash-scenario model only ever appends to the
event log. -/
theorem runStep_log_extend (s : RunState) (t : Tid) :
    ∃ u, (runStep s t).log = s.log ++ u := by
  have hnil : ∀ r : RunState, r.log = s.log → ∃ u, r.log = s.log ++ u := by
    intro r h
    refine ⟨[], ?_⟩
    rw [h, List.append_nil]
  cases t <;> unfold runStep <;> (repeat' split) <;>
    first
      | exact hnil _ rfl
      | exact hnil _ (runCancel_log s)
      | exact ⟨[EventName.abilityStarted], rfl⟩
      | exact ⟨[EventName.abilityCrashed], rfl⟩
      | exact ⟨[EventName.abilityStopped], rfl⟩

/-- A whole schedule of the crash-scenario model only ever appends to the
event log. -/
theorem runSched_log_extend (s : RunState) (l : List Tid) :
    ∃ u, (runSched s l).log = s.log ++ u := by
  induction l generalizing s with
  | nil => exact ⟨[], (List.append_nil _).symm⟩
  | cons t rest ih =>
      obtain ⟨u2, hu2⟩ := ih (runStep s t)
      obtain ⟨u1, hu1⟩ := runStep_log_extend s t
      refine ⟨u1 ++ u2, ?_⟩
      have hstep : runSched s (t :: rest) = runSched (runStep s t) rest := rfl
      rw [hstep, hu2, hu1, List.append_assoc]

/-- Capability dispatch never touches the context. -/
theorem dispatch_ctx (s : State) : (dispatch s).ctx = s.ctx := by
  unfold dispatch onActivable onRunnable
  (repeat' split) <;> rfl

/-- Capability dispatch never touches the cancel function. -/
theorem dispatch_cancel (s : State) : (dispatch s).cancel = s.cancel := by
  unfold dispatch onActivable onRunnable
  (repeat' split) <;> rfl

/-- Capability dispatch never touches the completion channel. -/
theorem dispatch_chanGen (s : State) : (dispatch s).chanGen = s.chanGen := by
  unfold dispatch onActivable onRunnable
  (repeat' split) <;> rfl

/-- Capability dispatch emits no event. -/
theorem dispatch_events (s : State) : (dispatch s).events = s.events := by
  unfold dispatch onActivable onRunnable
  (repeat' split) <;> rfl

/-- Capability dispatch never touches the name. -/
theorem dispatch_name (s : State) : (dispatch s).name = s.name := by
  unfold dispatch onActivable onRunnable
  (repeat' split) <;> rfl

/-- `on()` on a record that is already on returns it unchanged. -/
theorem on_of_isOn (s : State) (h : isOn s = true) : «on» s = s := by
  unfold «on»
  rw [h]
  rfl

/-- The context installed by a successful `on()` is fresh and uncancelled. -/
theorem on_ctx (s : State) (h : isOn s = false) :
    («on» s).ctx = some { gen := s.nextGen, cancelled := false } := by
  unfold «on»
  rw [h]
  simp only [Bool.false_eq_true, if_false]
  rw [show ∀ r : State, ({ r with
        events := r.events ++ [(EventName.abilityStarted, r.name)] } : State).ctx
      = r.ctx from fun _ => rfl]
  rw [dispatch_ctx]

/-- Full shape of a successful `on()` call: fresh context/cancel pair,
watcher started, capability dispatch, then the started event. -/
theorem on_eq_of_not_isOn (s : State) (h : isOn s = false) :
    «on» s =
      (fun s2 : State =>
        { s2 with events := s2.events ++ [(EventName.abilityStarted, s2.name)] })
        (dispatch
          { s with ctx := some { gen := s.nextGen, cancelled := false }
                   cancel := some s.nextGen
                   nextGen := s.nextGen + 1
                   spawnedWatchers := s.spawnedWatchers + 1 }) := by
  unfold «on»
  rw [h]
  rfl

/-- The cancel function installed by a successful `on()` matches the fresh
context. -/
theorem on_cancel (s : State) (h : isOn s = false) :
    («on» s).cancel = some s.nextGen := by
  rw [on_eq_of_not_isOn s h]
  show (dispatch _).cancel = _
  rw [dispatch_cancel]

/-- `on()` does not replace the completion channel. -/
theorem on_chanGen (s : State) (h : isOn s = false) :
    («on» s).chanGen = s.chanGen := by
  rw [on_eq_of_not_isOn s h]
  show (dispatch _).chanGen = _
  rw [dispatch_chanGen]

/-- A successful `on()` appends exactly one `AbilityStarted` event. -/
theorem on_events (s : State) (h : isOn s = false) :
    («on» s).events = s.events ++ [(EventName.abilityStarted, s.name)] := by
  rw [on_eq_of_not_isOn s h]
  show (dispatch _).events ++ [(EventName.abilityStarted, (dispatch _).name)] = _
  rw [dispatch_events, dispatch_name]

/-- A record is on right after a successful `on()`. -/
theorem isOn_on (s : State) (h : isOn s = false) : isOn («on» s) = true := by
  unfold isOn isOnUnsafe
  rw [on_ctx s h]
  rfl

/-- Dispatch reduction when the Activable assertion succeeds. -/
theorem dispatch_activable (s : State) (h : s.a.activable = true) :
    dispatch s = onActivable s := by
  unfold dispatch
  rw [h]
  rfl

/-- Dispatch reduction when only the Runnable assertion succeeds. -/
theorem dispatch_runnable (s : State) (ha : s.a.activable = false)
    (hr : s.a.runnable = true) : dispatch s = onRunnable s := by
  unfold dispatch
  rw [ha, hr]
  rfl

/-- Dispatch reduction when neither assertion succeeds. -/
theorem dispatch_neither (s : State) (ha : s.a.activable = false)
    (hr : s.a.runnable = false) : dispatch s = s := by
  unfold dispatch
  rw [ha, hr]
  rfl

/-!
## Claim theorems
-/

/-- Claim C1: after receiving a value from the completion signal, the
watcher classifies the termination by the cancellation context's error
alone — the same events are emitted whatever error value was received; a
nil context error yields `AbilityCrashed` and a non-nil context error
yields `AbilityStopped`. -/
theorem wait_classifies_by_context_error (s : State) (e e' : Option Nat) :
    (waitClassify s e).events = (waitClassify s e').events ∧
    (ctxErrIsNil s = true →
      (waitClassify s e).events =
        s.events ++ [(EventName.abilityCrashed, s.name)]) ∧
    (ctxErrIsNil s = false →
      (waitClassify s e).events =
        s.events ++ [(EventName.abilityStopped, s.name)]) := by
  unfold waitClassify
  cases h : ctxErrIsNil s <;> simp [h]

/-- Witness for C1: a crash classification on an on record with error 7
received, and a stop classification on a cancelled record with nil
received. -/
theorem wait_classifies_by_context_error_witness :
    (ctxErrIsNil («on» (newAbility "x" ⟨false, true⟩ ⟨false⟩)) = true ∧
     (waitClassify («on» (newAbility "x" ⟨false, true⟩ ⟨false⟩))
         (some 7)).events =
       («on» (newAbility "x" ⟨false, true⟩ ⟨false⟩)).events ++
         [(EventName.abilityCrashed,
           («on» (newAbility "x" ⟨false, true⟩ ⟨false⟩)).name)]) ∧
    (ctxErrIsNil (off («on» (newAbility "x" ⟨false, true⟩ ⟨false⟩))) = false ∧
     (waitClassify (off («on» (newAbility "x" ⟨false, true⟩ ⟨false⟩)))
         none).events =
       (off («on» (newAbility "x" ⟨false, true⟩ ⟨false⟩))).events ++
         [(EventName.abilityStopped,
           (off («on» (newAbility "x" ⟨false, true⟩ ⟨false⟩))).name)]) :=
  ⟨⟨by decide,
    (wait_classifies_by_context_error _ (some 7) (some 7)).2.1 (by decide)⟩,
   ⟨by decide,
    (wait_classifies_by_context_error _ none none).2.2 (by decide)⟩⟩

/-- Claim C3, counterexample: across two on/off cycles the record keeps the
completion channel allocated at construction (generation 0) while the
second `on()` installs a fresh context (generation 2) — the completion
signal is reused across cycles, not created together with the context. -/
theorem chanDone_reused_across_cycles :
    («on» (off («on» (newAbility "x" ⟨false, true⟩ ⟨false⟩)))).chanGen =
      (newAbility "x" ⟨false, true⟩ ⟨false⟩).chanGen ∧
    («on» (off («on» (newAbility "x" ⟨false, true⟩ ⟨false⟩)))).ctx =
      some { gen := 2, cancelled := false } ∧
    («on» (newAbility "x" ⟨false, true⟩ ⟨false⟩)).ctx =
      some { gen := 1, cancelled := false } := by
  decide

/-- Claim C3, amended: every successful `on()` installs a fresh
context/cancel pair together, but leaves the completion channel exactly as
it was allocated by `newAbility`. -/
theorem on_installs_fresh_ctx_reuses_chanDone (s : State)
    (h : isOn s = false) :
    («on» s).ctx = some { gen := s.nextGen, cancelled := false } ∧
    («on» s).cancel = some s.nextGen ∧
    («on» s).chanGen = s.chanGen :=
  ⟨on_ctx s h, on_cancel s h, on_chanGen s h⟩

/-- Witness for the amended C3 at a freshly constructed record. -/
theorem on_installs_fresh_ctx_reuses_chanDone_witness :
    («on» (newAbility "x" ⟨true, false⟩ ⟨false⟩)).ctx =
      some { gen := (newAbility "x" ⟨true, false⟩ ⟨false⟩).nextGen,
             cancelled := false } ∧
    («on» (newAbility "x" ⟨true, false⟩ ⟨false⟩)).cancel =
      some (newAbility "x" ⟨true, false⟩ ⟨false⟩).nextGen ∧
    («on» (newAbility "x" ⟨true, false⟩ ⟨false⟩)).chanGen =
      (newAbility "x" ⟨true, false⟩ ⟨false⟩).chanGen :=
  on_installs_fresh_ctx_reuses_chanDone _ (by decide)

/-- Claim C8: immediately after construction, before any `on()` call,
`isOn()` returns false. -/
theorem newAbility_is_off (name : String) (a : Impl) (o : AbilityOptions) :
    isOn (newAbility name a o) = false := rfl

/-- Claim C9: `off()` on an off record is a no-op — the whole record
(context, cancel function, completion channel, name, options,
implementation, event log) is returned unchanged, so no event is emitted. -/
theorem off_when_off_is_noop (s : State) (h : isOn s = false) : off s = s := by
  unfold off
  rw [h]
  rfl

/-- Witness for C9 at a freshly constructed record. -/
theorem off_when_off_is_noop_witness :
    off (newAbility "x" ⟨true, false⟩ ⟨false⟩) =
      newAbility "x" ⟨true, false⟩ ⟨false⟩ :=
  off_when_off_is_noop _ (by decide)

/-- Claim C10: on an on record whose context/cancel pair was installed
together (as `on()` always does), `off()` cancels synchronously, so
`isOn()` reads false immediately after `off()` returns. -/
theorem off_immediately_off (s : State) (hp : paired s = true)
    (h : isOn s = true) : isOn (off s) = false := by
  have hoff : off s = cancelCurrent s := by
    unfold off
    rw [h]
    rfl
  rw [hoff]
  unfold paired at hp
  unfold isOn isOnUnsafe at h ⊢
  unfold cancelCurrent
  cases hc : s.ctx with
  | none =>
      rw [hc] at h
      simp at h
  | some c =>
      cases hg : s.cancel with
      | none =>
          rw [hc, hg] at hp
          simp at hp
      | some g =>
          rw [hc, hg] at hp
          have hp' : (c.gen == g) = true := hp
          have hgen : c.gen = g := by simpa using hp'
          subst hgen
          simp

/-- Witness for C10: switching a fresh Activable record on and then off
leaves it observably off. -/
theorem off_immediately_off_witness :
    isOn (off («on» (newAbility "x" ⟨true, false⟩ ⟨false⟩))) = false :=
  off_immediately_off _ (by decide) (by decide)

/-- Claim C5: `on()` on an on record is a silent no-op (the record is
returned unchanged, so no session and no event); `on()` on an off record
leaves it observably on, a second `on()` changes nothing further, and
exactly one `AbilityStarted` event is emitted across the two calls. -/
theorem on_idempotent_and_turns_on (s : State) :
    (isOn s = true → «on» s = s) ∧
    (isOn s = false →
      isOn («on» s) = true ∧
      «on» («on» s) = «on» s ∧
      countEvent EventName.abilityStarted («on» («on» s)).events =
        countEvent EventName.abilityStarted s.events + 1) := by
  refine ⟨fun h => on_of_isOn s h, fun h => ?_⟩
  have h1 : isOn («on» s) = true := isOn_on s h
  have h2 : «on» («on» s) = «on» s := on_of_isOn _ h1
  refine ⟨h1, h2, ?_⟩
  rw [h2, on_events s h]
  unfold countEvent
  rw [List.countP_append]
  rfl

/-- Witness for C5: both branches exercised on a fresh Activable record and
on the record obtained by switching it on. -/
theorem on_idempotent_and_turns_on_witness :
    («on» («on» (newAbility "x" ⟨true, false⟩ ⟨false⟩)) =
        «on» (newAbility "x" ⟨true, false⟩ ⟨false⟩)) ∧
    (isOn («on» (newAbility "x" ⟨true, false⟩ ⟨false⟩)) = true ∧
     «on» («on» (newAbility "x" ⟨true, false⟩ ⟨false⟩)) =
        «on» (newAbility "x" ⟨true, false⟩ ⟨false⟩) ∧
     countEvent EventName.abilityStarted
         («on» («on» (newAbility "x" ⟨true, false⟩ ⟨false⟩))).events =
       countEvent EventName.abilityStarted
         (newAbility "x" ⟨true, false⟩ ⟨false⟩).events + 1) :=
  ⟨(on_idempotent_and_turns_on _).1 (by decide),
   (on_idempotent_and_turns_on _).2 (by decide)⟩

/-- Claim C6: capability dispatch in `on()` checks Activable first, so an
implementation satisfying both shapes is dispatched as Activable and no
runner is started; an implementation satisfying neither shape still flips
the record on, starts a watcher and emits `AbilityStarted`, but dispatches
no work. -/
theorem on_dispatch_priority_and_inert (s : State) :
    (isOn s = false → s.a.activable = true →
      («on» s).activateCalls = s.activateCalls ++ [true] ∧
      («on» s).spawnedWaiters = s.spawnedWaiters + 1 ∧
      («on» s).spawnedRuns = s.spawnedRuns) ∧
    (isOn s = false → s.a.activable = false → s.a.runnable = false →
      isOn («on» s) = true ∧
      («on» s).spawnedWatchers = s.spawnedWatchers + 1 ∧
      («on» s).events = s.events ++ [(EventName.abilityStarted, s.name)] ∧
      («on» s).activateCalls = s.activateCalls ∧
      («on» s).spawnedRuns = s.spawnedRuns ∧
      («on» s).spawnedWaiters = s.spawnedWaiters) := by
  constructor
  · intro h ha
    rw [on_eq_of_not_isOn s h]
    simp [dispatch, onActivable, ha]
  · intro h ha hr
    refine ⟨isOn_on s h, ?_⟩
    rw [on_eq_of_not_isOn s h]
    simp [dispatch, ha, hr]

/-- Witness for C6: a both-shapes implementation is dispatched as Activable
only, and a no-shape implementation becomes an inert on record. -/
theorem on_dispatch_priority_and_inert_witness :
    ((«on» (newAbility "x" ⟨true, true⟩ ⟨false⟩)).activateCalls =
        (newAbility "x" ⟨true, true⟩ ⟨false⟩).activateCalls ++ [true] ∧
     («on» (newAbility "x" ⟨true, true⟩ ⟨false⟩)).spawnedWaiters =
        (newAbility "x" ⟨true, true⟩ ⟨false⟩).spawnedWaiters + 1 ∧
     («on» (newAbility "x" ⟨true, true⟩ ⟨false⟩)).spawnedRuns =
        (newAbility "x" ⟨true, true⟩ ⟨false⟩).spawnedRuns) ∧
    (isOn («on» (newAbility "y" ⟨false, false⟩ ⟨false⟩)) = true ∧
     («on» (newAbility "y" ⟨false, false⟩ ⟨false⟩)).spawnedWatchers =
        (newAbility "y" ⟨false, false⟩ ⟨false⟩).spawnedWatchers + 1 ∧
     («on» (newAbility "y" ⟨false, false⟩ ⟨false⟩)).events =
        (newAbility "y" ⟨false, false⟩ ⟨false⟩).events ++
          [(EventName.abilityStarted, (newAbility "y" ⟨false, false⟩ ⟨false⟩).name)] ∧
     («on» (newAbility "y" ⟨false, false⟩ ⟨false⟩)).activateCalls =
        (newAbility "y" ⟨false, false⟩ ⟨false⟩).activateCalls ∧
     («on» (newAbility "y" ⟨false, false⟩ ⟨false⟩)).spawnedRuns =
        (newAbility "y" ⟨false, false⟩ ⟨false⟩).spawnedRuns ∧
     («on» (newAbility "y" ⟨false, false⟩ ⟨false⟩)).spawnedWaiters =
        (newAbility "y" ⟨false, false⟩ ⟨false⟩).spawnedWaiters) :=
  ⟨(on_dispatch_priority_and_inert _).1 (by decide) (by decide),
   (on_dispatch_priority_and_inert _).2 (by decide) (by decide) (by decide)⟩

/-- Claim C7: for an Activable implementation, `on()` records exactly one
`Activate(true)` call in its own (synchronous) effects and starts exactly
one waiter; the waiter body — which runs only after the cancellation
context is done — records `Activate(false)` and posts a nil result to the
completion signal. -/
theorem activable_on_and_waiter (s : State) (h : isOn s = false)
    (ha : s.a.activable = true) :
    («on» s).activateCalls = s.activateCalls ++ [true] ∧
    («on» s).spawnedWaiters = s.spawnedWaiters + 1 ∧
    (activableWaiterBody («on» s)).1.activateCalls =
      s.activateCalls ++ [true, false] ∧
    (activableWaiterBody («on» s)).2 = none := by
  have hac : («on» s).activateCalls = s.activateCalls ++ [true] := by
    rw [on_eq_of_not_isOn s h]
    simp [dispatch, onActivable, ha]
  have hsw : («on» s).spawnedWaiters = s.spawnedWaiters + 1 := by
    rw [on_eq_of_not_isOn s h]
    simp [dispatch, onActivable, ha]
  refine ⟨hac, hsw, ?_, rfl⟩
  show («on» s).activateCalls ++ [false] = s.activateCalls ++ [true, false]
  rw [hac, List.append_assoc]
  rfl

/-- Witness for C7 at a fresh Activable record. -/
theorem activable_on_and_waiter_witness :
    («on» (newAbility "x" ⟨true, false⟩ ⟨false⟩)).activateCalls =
      (newAbility "x" ⟨true, false⟩ ⟨false⟩).activateCalls ++ [true] ∧
    («on» (newAbility "x" ⟨true, false⟩ ⟨false⟩)).spawnedWaiters =
      (newAbility "x" ⟨true, false⟩ ⟨false⟩).spawnedWaiters + 1 ∧
    (activableWaiterBody («on» (newAbility "x" ⟨true, false⟩ ⟨false⟩))).1.activateCalls =
      (newAbility "x" ⟨true, false⟩ ⟨false⟩).activateCalls ++ [true, false] ∧
    (activableWaiterBody («on» (newAbility "x" ⟨true, false⟩ ⟨false⟩))).2 = none :=
  activable_on_and_waiter _ (by decide) (by decide)

/-- Claim C2 (code bug evaluation): under the racy schedule — thread 0 runs
its `isOn()` check and sees "off", thread 1 then runs its entire `on()`
call, thread 0 resumes — both callers create a live session: `Activate(true)`
runs twice, two watchers are started, and `AbilityStarted` is emitted twice.
The `isOn()` test is the only step of `on()` performed under the mutex; the
decision to start is acted on after the lock is released. -/
theorem concurrent_on_double_start :
    (raceRun raceInit raceBadSched).started = 2 ∧
    (raceRun raceInit raceBadSched).activateTrue = 2 ∧
    (raceRun raceInit raceBadSched).watchers = 2 := by
  decide

/-- Claim C4, counterexample: with a Runnable whose `Run` fails immediately,
the schedule in which the runner and watcher overtake the tail of `on()`
emits `AbilityCrashed` before `AbilityStarted` — the started-before-terminal
ordering does not hold under every interleaving. -/
theorem crashed_observable_before_started :
    (runSched runInit runBadSched).log =
      [EventName.abilityCrashed, EventName.abilityStarted] := by
  decide

/-- Claim C4, amended: if the caller's `on()` runs to completion before the
watcher and the ability's task take any step, then under every continuation
of the execution `AbilityStarted` is the first event of the cycle, hence
observable before any terminal event. -/
theorem started_first_when_on_completes_first (sched : List Tid) :
    ∃ t, (runSched runInit (callerAll ++ sched)).log =
      EventName.abilityStarted :: t := by
  have hsplit : runSched runInit (callerAll ++ sched) =
      runSched (runSched runInit callerAll) sched := by
    unfold runSched
    rw [List.foldl_append]
  obtain ⟨u, hu⟩ := runSched_log_extend (runSched runInit callerAll) sched
  refine ⟨u, ?_⟩
  rw [hsplit, hu]
  have hmid : (runSched runInit callerAll).log = [EventName.abilityStarted] := by
    decide
  rw [hmid]
  rfl
